import Mathlib

/-!
Verification of the hrh-go domain core: value objects (Location, Address),
aggregates (School, Teacher, Admin/User), their invariant-checking mutators,
and the two storage adapters (the in-memory school repository and a model of
the SQLite adapter).  Go strings become Lean `String`, Go `time.Time` becomes
`Nat` (mutators take the current time as an explicit argument in place of
`time.Now()`), Go `float64` coordinates become `Rat` (the adapters only copy
and compare coordinates, never compute with them), and Go `error` values
become `Option String` / `Except String` carrying the error message.
-/

namespace HrhGo

/-- ASCII whitespace, the trimming class relevant to every value in play. -/
def isSpaceChar (c : Char) : Bool :=
  c == ' ' || c == '\t' || c == '\n' || c == '\r'

/-- Go `strings.TrimSpace` (ASCII whitespace suffices for every value in play). -/
def trimSpace (s : String) : String :=
  ⟨((s.data.dropWhile isSpaceChar).reverse.dropWhile isSpaceChar).reverse⟩

/-- Go `strings.ToLower` (ASCII case mapping suffices for every value in play). -/
def lowerStr (s : String) : String := ⟨s.data.map Char.toLower⟩

/-- Whether `sub` is a prefix of `s`, on character lists. -/
def charListEqPre : List Char → List Char → Bool
  | [], _ => true
  | _ :: _, [] => false
  | a :: as, b :: bs => a == b && charListEqPre as bs

/-- Whether `sub` occurs as a contiguous run inside `s`, on character lists. -/
def subInList (sub : List Char) : List Char → Bool
  | [] => sub.isEmpty
  | c :: rest => charListEqPre sub (c :: rest) || subInList sub rest

/-- Substring containment.  Go `strings.Contains`, and also the semantics of the
hand-rolled `contains`/`containsAt` helpers in `pkg/storage/sqlite/db.go`
(those helpers test the empty pattern, the two ends and every interior start
position, which together are exactly contiguous-substring containment). -/
def strContains (s sub : String) : Bool := subInList sub.toList s.toList

/-- `IsDuplicateKeyError` from `pkg/storage/sqlite/db.go`: substring
classification of engine error text. -/
def isDuplicateKeyError (e : String) : Bool :=
  strContains e "UNIQUE constraint failed" || strContains e "duplicate key"

/-- `IsForeignKeyError` from `pkg/storage/sqlite/db.go`. -/
def isForeignKeyError (e : String) : Bool :=
  strContains e "FOREIGN KEY constraint failed" || strContains e "foreign key"

end HrhGo

namespace HrhGo

/-- `Location` value object (`internal/shared/domain`), coordinates as `Rat`. -/
structure Location where
  Latitude : Rat
  Longitude : Rat
  County : String
  Region : String
deriving Repr, DecidableEq

/-- `Location.validate` from `internal/shared/domain`. -/
def Location.validate (l : Location) : Option String :=
  if l.Latitude < -90 ∨ 90 < l.Latitude then
    some "latitude must be between -90 and 90 degrees"
  else if l.Longitude < -180 ∨ 180 < l.Longitude then
    some "longitude must be between -180 and 180 degrees"
  else none

/-- `NewLocation` from `internal/shared/domain`. -/
def NewLocation (latitude longitude : Rat) (county region : String) :
    Except String Location :=
  let loc : Location :=
    { Latitude := latitude, Longitude := longitude,
      County := trimSpace county, Region := trimSpace region }
  match loc.validate with
  | some e => .error e
  | none => .ok loc

/-- `Location.IsEmpty`. -/
def Location.IsEmpty (l : Location) : Bool := l.Latitude == 0 && l.Longitude == 0

/-- `Address` value object (`internal/shared/domain`). -/
structure Address where
  Street : String
  City : String
  State : String
  ZipCode : String
  Location : Location
deriving Repr, DecidableEq

/-- US zip format `NNNNN` or `NNNNN-NNNN`, the regex in `Address.validate`. -/
def zipMatch (z : String) : Bool :=
  match z.toList with
  | [a, b, c, d, e] => [a, b, c, d, e].all Char.isDigit
  | [a, b, c, d, e, dash, f, g, h, i] =>
      [a, b, c, d, e].all Char.isDigit && dash == '-' && [f, g, h, i].all Char.isDigit
  | _ => false

/-- `Address.validate` from `internal/shared/domain`. -/
def Address.validate (a : Address) : Option String :=
  if a.City = "" then some "city is required"
  else if a.State = "" then some "state is required"
  else if a.State.length ≠ 2 then some "state must be a 2-letter code"
  else if a.ZipCode ≠ "" ∧ zipMatch a.ZipCode = false then
    some "zip code must be in format 12345 or 12345-6789"
  else none

/-- `NewAddress` from `internal/shared/domain`. -/
def NewAddress (street city state zipCode : String) (location : Location) :
    Except String Address :=
  let addr : Address :=
    { Street := trimSpace street, City := trimSpace city,
      State := trimSpace state, ZipCode := trimSpace zipCode,
      Location := location }
  match addr.validate with
  | some e => .error e
  | none => .ok addr

/-- `Address.IsEmpty`. -/
def Address.IsEmpty (a : Address) : Bool :=
  a.Street == "" && a.City == "" && a.State == "" && a.ZipCode == ""

end HrhGo

namespace HrhGo

/-- Model of the external `golang.org/x/crypto/bcrypt` one-way hash, which the
spec scopes out ("only its contract — a one-way hash compared against a
candidate value — is consumed").  The model is the deterministic tagging of the
plain text with a bcrypt-style prefix; `bcryptCompare` succeeds exactly on the
hash derived from the candidate, which is the consumed contract. -/
def bcryptHash (plain : String) : String := "$2a$10$" ++ plain

/-- Model of `bcrypt.CompareHashAndPassword` (true = no error). -/
def bcryptCompare (hash plain : String) : Bool := hash == bcryptHash plain

/-- `User` entity from `internal/shared/domain/user.go`. -/
structure User where
  ID : String
  Username : String
  PasswordHash : String
  CreatedAt : Nat
deriving Repr, DecidableEq

/-- `HashPassword` from `internal/shared/domain/user.go`. -/
def HashPassword (plainPassword : String) : Except String String :=
  if plainPassword = "" then .error "password cannot be empty"
  else .ok (bcryptHash plainPassword)

/-- `User.validateInvariants` from `internal/shared/domain/user.go`. -/
def User.validateInvariants (u : User) : Option String :=
  if u.Username = "" then some "username is required"
  else if u.Username.length < 3 then some "username must be at least 3 characters long"
  else if u.PasswordHash = "" then some "password hash is required"
  else none

/-- `NewUser` from `internal/shared/domain/user.go`; `generateID()` and
`time.Now()` become the explicit `id`/`now` arguments. -/
def NewUser (id : String) (now : Nat) (username plainPassword : String) :
    Except String User :=
  match HashPassword plainPassword with
  | .error e => .error ("failed to hash password: " ++ e)
  | .ok passwordHash =>
    let user : User :=
      { ID := id, Username := trimSpace username,
        PasswordHash := passwordHash, CreatedAt := now }
    match user.validateInvariants with
    | some e => .error e
    | none => .ok user

/-- `User.ValidatePassword` from `internal/shared/domain/user.go`. -/
def User.ValidatePassword (u : User) (plainPassword : String) : Bool :=
  bcryptCompare u.PasswordHash plainPassword

/-- `Admin` entity from `internal/admin/model.go`. -/
structure Admin where
  ID : String
  Username : String
  PasswordHash : String
  CreatedAt : Nat
deriving Repr, DecidableEq

/-- `Admin.validateInvariants` from `internal/admin/model.go`. -/
def Admin.validateInvariants (a : Admin) : Option String :=
  if a.Username = "" then some "username is required"
  else if a.Username.length < 3 then some "username must be at least 3 characters long"
  else if a.PasswordHash = "" then some "password hash is required"
  else none

/-- `NewAdmin` from `internal/admin/model.go`.  Note the source takes the
already-hashed value (`passwordHash` parameter) and stores it verbatim. -/
def NewAdmin (id : String) (now : Nat) (username passwordHash : String) :
    Except String Admin :=
  let admin : Admin :=
    { ID := id, Username := trimSpace username,
      PasswordHash := passwordHash, CreatedAt := now }
  match admin.validateInvariants with
  | some e => .error e
  | none => .ok admin

/-- Modelled from the spec: `NewAdminWithHash` (§4.4, "accepts an
already-hashed value (used when reconstructing from storage)") is called by the
SQLite admin repository but its definition is absent from the sources; it is
modelled after `NewUserWithHash` in `internal/shared/domain/user.go`, which the
spec describes in the same sentence. -/
def NewAdminWithHash (id : String) (now : Nat) (username passwordHash : String) :
    Except String Admin :=
  let admin : Admin :=
    { ID := id, Username := trimSpace username,
      PasswordHash := passwordHash, CreatedAt := now }
  match admin.validateInvariants with
  | some e => .error e
  | none => .ok admin

/-- Modelled from the spec: `Admin.ValidatePassword` (§4.4, "true iff the
one-way hash of candidate matches the stored hash") is called by the SQLite
admin repository but absent from the sources; modelled after
`User.ValidatePassword` in `internal/shared/domain/user.go`. -/
def Admin.ValidatePassword (a : Admin) (plainPassword : String) : Bool :=
  bcryptCompare a.PasswordHash plainPassword

end HrhGo

namespace HrhGo

/-- Character class `[a-zA-Z0-9._%+-]` of the local part of `emailRegex`. -/
def emailLocalChar (c : Char) : Bool :=
  c.isAlpha || c.isDigit || c == '.' || c == '_' || c == '%' || c == '+' || c == '-'

/-- Character class `[a-zA-Z0-9.-]` of the host part of `emailRegex`. -/
def emailHostChar (c : Char) : Bool :=
  c.isAlpha || c.isDigit || c == '.' || c == '-'

/-- An all-letter tail of length at least two: the `[a-zA-Z]\x7b2,\x7d$` part
of `emailRegex`. -/
def tailAlphaTwo (cs : List Char) : Bool :=
  cs.length ≥ 2 && cs.all Char.isAlpha

/-- Search for the `[a-zA-Z0-9.-]+\.[a-zA-Z]\x7b2,\x7d$` part of `emailRegex`:
at each dot preceded by at least one host-class character, the remaining tail
may close the match. -/
def hostSearch (preSeen : Bool) : List Char → Bool
  | [] => false
  | c :: rest =>
    (c == '.' && preSeen && tailAlphaTwo rest) ||
      (emailHostChar c && hostSearch true rest)

/-- Scan of the local part `[a-zA-Z0-9._%+-]+@` of `emailRegex`: the local
class excludes `@`, so the first `@` ends the local part deterministically. -/
def emailScan (localSeen : Bool) : List Char → Bool
  | [] => false
  | c :: rest =>
    if c == '@' then localSeen && hostSearch false rest
    else emailLocalChar c && emailScan true rest

/-- Matching against the anchored `emailRegex`
`[a-zA-Z0-9._%+-]+@[a-zA-Z0-9.-]+\.[a-zA-Z]\x7b2,\x7d` of
`internal/teacherwishlist/model.go`: a match exists exactly when the string is
`local@pre.tld` with non-empty `local` over the local class, non-empty `pre`
over the host class and a final all-letter `tld` of length at least two. -/
def emailMatch (s : String) : Bool := emailScan false s.data

/-- Teacher status values (`type TeacherStatus string` in the source). -/
def TeacherStatusPending : String := "pending"

/-- The `approved` status constant. -/
def TeacherStatusApproved : String := "approved"

/-- The `rejected` status constant. -/
def TeacherStatusRejected : String := "rejected"

/-- `TeacherStatus.IsValid`. -/
def statusIsValid (ts : String) : Bool :=
  ts == TeacherStatusPending || ts == TeacherStatusApproved || ts == TeacherStatusRejected

/-- `Teacher` aggregate root from `internal/teacherwishlist/model.go`. -/
structure Teacher where
  ID : String
  Email : String
  FirstName : String
  LastName : String
  SchoolID : String
  GradeLevel : String
  WishlistURL : String
  Status : String
  CreatedAt : Nat
  UpdatedAt : Nat
deriving Repr, DecidableEq

/-- Valid URI-scheme spelling per the external `net/url` parser: a letter
followed by letters, digits, `+`, `-` or `.`. -/
def validSchemeChars (s : String) : Bool :=
  match s.toList with
  | [] => false
  | c :: rest => c.isAlpha && rest.all fun d => d.isAlpha || d.isDigit || d == '+' || d == '-' || d == '.'

/-- Split at the first occurrence of `://`, accumulating the scheme part. -/
def splitSchemeAux (acc : List Char) : List Char → Option (List Char × List Char)
  | [] => none
  | c :: rest =>
    if charListEqPre [':', '/', '/'] (c :: rest) then
      some (acc.reverse, (c :: rest).drop 3)
    else splitSchemeAux (c :: acc) rest

/-- Model of the external `net/url.Parse` restricted to what the domain reads
from it: the lower-cased `Scheme` and the `Host` of a `scheme://authority/...`
URL.  Inputs without a well-formed `scheme://` part parse with empty scheme and
host (relative references), which the caller rejects the same way it rejects a
parse error. -/
def parseSchemeHost (s : String) : String × String :=
  match splitSchemeAux [] s.data with
  | some (schemeCs, after) =>
    if validSchemeChars ⟨schemeCs⟩ then
      (lowerStr ⟨schemeCs⟩,
       ⟨after.takeWhile fun c => !(c == '/') && !(c == '?') && !(c == '#')⟩)
    else ("", "")
  | none => ("", "")

/-- `Teacher.validateWishlistURL` from `internal/teacherwishlist/model.go`. -/
def validateWishlistURL (wishlistURL : String) : Option String :=
  if wishlistURL = "" then none
  else
    let parsed := parseSchemeHost wishlistURL
    if parsed.1 = "" ∨ parsed.2 = "" then some "invalid URL format"
    else if parsed.1 ≠ "https" then some "wishlist URL must use HTTPS"
    else if !(strContains parsed.2 "amazon.com" || strContains parsed.2 "amzn.to") then
      some "wishlist URL must be from Amazon"
    else none

/-- `Teacher.validateInvariants` from `internal/teacherwishlist/model.go`. -/
def Teacher.validateInvariants (t : Teacher) : Option String :=
  if t.Email = "" then some "email is required"
  else if emailMatch t.Email = false then some "email format is invalid"
  else if t.FirstName = "" then some "first name is required"
  else if t.LastName = "" then some "last name is required"
  else if t.SchoolID = "" then some "school ID is required"
  else if statusIsValid t.Status = false then some "invalid teacher status"
  else if t.WishlistURL ≠ "" then validateWishlistURL t.WishlistURL
  else none

/-- `NewTeacher` from `internal/teacherwishlist/model.go`; `generateID()` and
`time.Now()` become the explicit `id`/`now` arguments. -/
def NewTeacher (id : String) (now : Nat)
    (email firstName lastName schoolID gradeLevel : String) :
    Except String Teacher :=
  let teacher : Teacher :=
    { ID := id, Email := trimSpace (lowerStr email),
      FirstName := trimSpace firstName, LastName := trimSpace lastName,
      SchoolID := trimSpace schoolID, GradeLevel := trimSpace gradeLevel,
      WishlistURL := "", Status := TeacherStatusPending,
      CreatedAt := now, UpdatedAt := now }
  match teacher.validateInvariants with
  | some e => .error e
  | none => .ok teacher

/-- `Teacher.UpdateWishlistURL`: the returned pair is (error, state of the
aggregate after the call) — the Go method mutates the receiver in place, so a
late validation error is returned with the mutation already applied. -/
def Teacher.UpdateWishlistURL (t : Teacher) (wishlistURL : String) (now : Nat) :
    Option String × Teacher :=
  let url := trimSpace wishlistURL
  match validateWishlistURL url with
  | some e => (some e, t)
  | none =>
    let t' := { t with WishlistURL := url, UpdatedAt := now }
    (t'.validateInvariants, t')

/-- `Teacher.Approve` from `internal/teacherwishlist/model.go`. -/
def Teacher.Approve (t : Teacher) (now : Nat) : Option String × Teacher :=
  if t.Status = TeacherStatusApproved then (some "teacher is already approved", t)
  else if t.Status = TeacherStatusRejected then
    (some "cannot approve a rejected teacher", t)
  else if t.WishlistURL = "" then
    (some "teacher must have a wishlist URL to be approved", t)
  else
    let t' := { t with Status := TeacherStatusApproved, UpdatedAt := now }
    (t'.validateInvariants, t')

/-- `Teacher.Reject` from `internal/teacherwishlist/model.go`. -/
def Teacher.Reject (t : Teacher) (now : Nat) : Option String × Teacher :=
  if t.Status = TeacherStatusRejected then (some "teacher is already rejected", t)
  else if t.Status = TeacherStatusApproved then
    (some "cannot reject an approved teacher", t)
  else
    let t' := { t with Status := TeacherStatusRejected, UpdatedAt := now }
    (t'.validateInvariants, t')

/-- `Teacher.UpdateProfile` from `internal/teacherwishlist/model.go`. -/
def Teacher.UpdateProfile (t : Teacher) (firstName lastName gradeLevel : String)
    (now : Nat) : Option String × Teacher :=
  let t' := { t with FirstName := trimSpace firstName,
                     LastName := trimSpace lastName,
                     GradeLevel := trimSpace gradeLevel, UpdatedAt := now }
  (t'.validateInvariants, t')

end HrhGo

namespace HrhGo

/-- `School` aggregate root from `internal/schooldirectory/model.go`. -/
structure School where
  ID : String
  Name : String
  Address : Address
  CreatedAt : Nat
  UpdatedAt : Nat
deriving Repr, DecidableEq

/-- `NewSchool` from `internal/schooldirectory/model.go`. -/
def NewSchool (id : String) (now : Nat) (name : String) (address : HrhGo.Address) :
    Except String School :=
  let name := trimSpace name
  if name = "" then .error "school name cannot be empty"
  else if address.IsEmpty then .error "school address cannot be empty"
  else .ok { ID := id, Name := name, Address := address,
             CreatedAt := now, UpdatedAt := now }

/-- `School.UpdateName` from `internal/schooldirectory/model.go`: the pair is
(error, state of the aggregate after the call). -/
def School.UpdateName (s : School) (name : String) (now : Nat) :
    Option String × School :=
  let name := trimSpace name
  if name = "" then (some "school name cannot be empty", s)
  else (none, { s with Name := name, UpdatedAt := now })

/-- `School.UpdateAddress` from `internal/schooldirectory/model.go`. -/
def School.UpdateAddress (s : School) (address : HrhGo.Address) (now : Nat) :
    Option String × School :=
  if address.IsEmpty then (some "school address cannot be empty", s)
  else (none, { s with Address := address, UpdatedAt := now })

/-- `School.GetUniqueKey`: normalized `name|city|state`. -/
def School.GetUniqueKey (s : School) : String :=
  lowerStr (trimSpace s.Name) ++ "|" ++ lowerStr (trimSpace s.Address.City) ++ "|" ++
    lowerStr (trimSpace s.Address.State)

/-- `School.ValidateInvariants` from `internal/schooldirectory/model.go`. -/
def School.ValidateInvariants (s : School) : Option String :=
  if trimSpace s.Name = "" then some "school name cannot be empty"
  else if s.Address.IsEmpty then some "school address cannot be empty"
  else if trimSpace s.Address.City = "" then some "school address must have a city"
  else if trimSpace s.Address.State = "" then some "school address must have a state"
  else none

/-- Association-list lookup standing in for a Go map read `m[k]`. -/
def mapLookup {α : Type} (m : List (String × α)) (k : String) : Option α :=
  (m.find? fun p => p.1 == k).map fun p => p.2

/-- Go map `delete(m, k)`. -/
def mapErase {α : Type} (m : List (String × α)) (k : String) : List (String × α) :=
  m.filter fun p => !(p.1 == k)

/-- Go map write `m[k] = v`. -/
def mapInsert {α : Type} (m : List (String × α)) (k : String) (v : α) :
    List (String × α) :=
  mapErase m k ++ [(k, v)]

/-- `InMemorySchoolRepository` state: the primary `schools` map keyed by ID and
the secondary `uniqueCombos` map keyed by the normalized natural key. -/
structure InMemorySchoolRepo where
  schools : List (String × School)
  uniqueCombos : List (String × School)
deriving Repr, DecidableEq

/-- The empty `NewInMemorySchoolRepository()` state. -/
def emptySchoolRepo : InMemorySchoolRepo := { schools := [], uniqueCombos := [] }

/-- The duplicate message produced by the in-memory `Save`. -/
def inMemDupMsg (s : School) (existingID : String) : String :=
  "school with name '" ++ s.Name ++ "', city '" ++ s.Address.City ++ "', and state '" ++
    s.Address.State ++ "' already exists (ID: " ++ existingID ++ ")"

/-- `InMemorySchoolRepository.Save` from `internal/schooldirectory/repository.go`:
first drops the previous natural-key entry of a school that already exists under
this ID, then checks the new key for a collision with a different identity, and
only then writes both maps.  The pair is (error, repository state after the
call). -/
def InMemorySchoolRepo.Save (r : InMemorySchoolRepo) (s : School) :
    Option String × InMemorySchoolRepo :=
  let r1 := match mapLookup r.schools s.ID with
    | some existingSchool =>
        { r with uniqueCombos := mapErase r.uniqueCombos existingSchool.GetUniqueKey }
    | none => r
  let comboKey := s.GetUniqueKey
  match mapLookup r1.uniqueCombos comboKey with
  | some existingSchool =>
    if existingSchool.ID ≠ s.ID then (some (inMemDupMsg s existingSchool.ID), r1)
    else (none, { schools := mapInsert r1.schools s.ID s,
                  uniqueCombos := mapInsert r1.uniqueCombos comboKey s })
  | none => (none, { schools := mapInsert r1.schools s.ID s,
                     uniqueCombos := mapInsert r1.uniqueCombos comboKey s })

/-- `InMemorySchoolRepository.Create` delegates to `Save`. -/
def InMemorySchoolRepo.Create (r : InMemorySchoolRepo) (s : School) :
    Option String × InMemorySchoolRepo := r.Save s

/-- `InMemorySchoolRepository.Update` delegates to `Save`. -/
def InMemorySchoolRepo.Update (r : InMemorySchoolRepo) (s : School) :
    Option String × InMemorySchoolRepo := r.Save s

/-- `InMemorySchoolRepository.GetByID_Legacy`. -/
def InMemorySchoolRepo.GetByID (r : InMemorySchoolRepo) (id : String) :
    Except String School :=
  match mapLookup r.schools id with
  | some school => .ok school
  | none => .error ("school with ID " ++ id ++ " not found")

end HrhGo

namespace HrhGo

/-- A row of the `schools` table (`initializeSchema` in
`pkg/storage/sqlite/db.go`): the Address and Location value objects are
flattened into sibling columns. -/
structure SchoolRow where
  id : String
  name : String
  street : String
  city : String
  state : String
  zip : String
  lat : Rat
  lng : Rat
  county : String
  region : String
  createdAt : Nat
  updatedAt : Nat
deriving Repr, DecidableEq

/-- Flattening performed by the SQLite `SchoolRepository.Create` insert. -/
def schoolToRow (s : School) : SchoolRow :=
  { id := s.ID, name := s.Name,
    street := s.Address.Street, city := s.Address.City,
    state := s.Address.State, zip := s.Address.ZipCode,
    lat := s.Address.Location.Latitude, lng := s.Address.Location.Longitude,
    county := s.Address.Location.County, region := s.Address.Location.Region,
    createdAt := s.CreatedAt, updatedAt := s.UpdatedAt }

/-- The wrapped duplicate message of the SQLite `SchoolRepository.Create`
(`%w`-wrapping `ErrDuplicateKey`, whose text is "duplicate key violation"). -/
def sqliteSchoolDupMsg (s : School) : String :=
  "school with name '" ++ s.Name ++ "' in " ++ s.Address.City ++ ", " ++
    s.Address.State ++ " already exists: duplicate key violation"

/-- Whether inserting `s` violates a `schools` constraint.  The engine's
`id TEXT PRIMARY KEY` and `UNIQUE(name, address_city, address_state)` indexes
compare column values with SQLite's default BINARY collation, i.e. byte
equality of the stored strings, with no case folding or trimming. -/
def sqliteSchoolConflict (db : List SchoolRow) (s : School) : Bool :=
  db.any fun r =>
    r.id == s.ID ||
      (r.name == s.Name && r.city == s.Address.City && r.state == s.Address.State)

/-- SQLite `SchoolRepository.Create`: validates the aggregate, then inserts;
an engine constraint rejection is classified by `IsDuplicateKeyError` and
wrapped into the duplicate message. -/
def sqliteSchoolCreate (db : List SchoolRow) (s : School) :
    Except String (List SchoolRow) :=
  match s.ValidateInvariants with
  | some e => .error ("school invariant validation failed: " ++ e)
  | none =>
    if sqliteSchoolConflict db s then .error (sqliteSchoolDupMsg s)
    else .ok (db ++ [schoolToRow s])

/-- SQLite `SchoolRepository.GetByID`: reads the row and reconstructs the
Address and Location value objects through their validating constructors. -/
def sqliteSchoolGetByID (db : List SchoolRow) (id : String) :
    Except String School :=
  match db.find? (fun r => r.id == id) with
  | none => .error ("school with ID " ++ id ++ " not found: record not found")
  | some r =>
    match NewLocation r.lat r.lng r.county r.region with
    | .error e => .error ("failed to reconstruct location value object: " ++ e)
    | .ok location =>
      match NewAddress r.street r.city r.state r.zip location with
      | .error e => .error ("failed to reconstruct address value object: " ++ e)
      | .ok address =>
        .ok { ID := r.id, Name := r.name, Address := address,
              CreatedAt := r.createdAt, UpdatedAt := r.updatedAt }

/-- A row of the `teachers` table. -/
structure TeacherRow where
  id : String
  email : String
  firstName : String
  lastName : String
  schoolID : String
  gradeLevel : String
  wishlistURL : String
  status : String
  createdAt : Nat
  updatedAt : Nat
deriving Repr, DecidableEq

/-- Column image of a Teacher under the SQLite `TeacherRepository.Create`
insert (`Status.String()` is the identity on the underlying string). -/
def teacherToRow (t : Teacher) : TeacherRow :=
  { id := t.ID, email := t.Email, firstName := t.FirstName,
    lastName := t.LastName, schoolID := t.SchoolID,
    gradeLevel := t.GradeLevel, wishlistURL := t.WishlistURL,
    status := t.Status, createdAt := t.CreatedAt, updatedAt := t.UpdatedAt }

/-- SQLite `TeacherRepository.Create`: the engine rejects a duplicate
`id`/`email` (both UNIQUE, byte equality) and a `school_id` that matches no
`schools.id` (foreign key, enforced because the connection sets
`foreign_keys=ON`). -/
def sqliteTeacherCreate (schools : List SchoolRow) (db : List TeacherRow)
    (t : Teacher) : Except String (List TeacherRow) :=
  if db.any fun r => r.id == t.ID || r.email == t.Email then
    .error ("teacher with email " ++ t.Email ++ " already exists: duplicate key violation")
  else if !(schools.any fun r => r.id == t.SchoolID) then
    .error ("school with ID " ++ t.SchoolID ++ " does not exist: foreign key violation")
  else .ok (db ++ [teacherToRow t])

/-- SQLite `TeacherRepository.GetByID`: scans the columns straight into the
aggregate (no value objects to reconstruct). -/
def sqliteTeacherGetByID (db : List TeacherRow) (id : String) :
    Except String Teacher :=
  match db.find? (fun r => r.id == id) with
  | none => .error ("teacher with ID " ++ id ++ " not found: record not found")
  | some r =>
    .ok { ID := r.id, Email := r.email, FirstName := r.firstName,
          LastName := r.lastName, SchoolID := r.schoolID,
          GradeLevel := r.gradeLevel, WishlistURL := r.wishlistURL,
          Status := r.status, CreatedAt := r.createdAt, UpdatedAt := r.updatedAt }

/-- A row of the `admins` table. -/
structure AdminRow where
  id : String
  username : String
  passwordHash : String
  createdAt : Nat
deriving Repr, DecidableEq

/-- SQLite `AdminRepository.Create`: `id` is the primary key and `username` is
UNIQUE (byte equality). -/
def sqliteAdminCreate (db : List AdminRow) (a : Admin) :
    Except String (List AdminRow) :=
  if db.any fun r => r.id == a.ID || r.username == a.Username then
    .error ("admin with username " ++ a.Username ++ " already exists: duplicate key violation")
  else .ok (db ++ [{ id := a.ID, username := a.Username,
                     passwordHash := a.PasswordHash, createdAt := a.CreatedAt }])

/-- SQLite `AdminRepository.GetByUsername`: finds the row with byte-equal
username, rebuilds the aggregate through `NewAdminWithHash`, then overwrites
the generated ID and CreatedAt with the stored columns. -/
def sqliteAdminGetByUsername (db : List AdminRow) (username : String) :
    Except String Admin :=
  match db.find? (fun r => r.username == username) with
  | none => .error ("admin with username " ++ username ++ " not found: record not found")
  | some r =>
    match NewAdminWithHash "" 0 r.username r.passwordHash with
    | .error e => .error ("failed to create admin from database data: " ++ e)
    | .ok adminUser => .ok { adminUser with ID := r.id, CreatedAt := r.createdAt }

/-- Modelled from the spec: `AdminRepository.GetByID` is declared on the admin
repository contract (`internal/admin`, and §6 of the spec) but its SQLite
implementation is absent from the sources; per the contract it returns the
stored aggregate for the identity, with every field read back from its row. -/
def sqliteAdminGetByID (db : List AdminRow) (id : String) :
    Except String Admin :=
  match db.find? (fun r => r.id == id) with
  | none => .error ("admin with ID " ++ id ++ " not found: record not found")
  | some r =>
    .ok { ID := r.id, Username := r.username, PasswordHash := r.passwordHash,
          CreatedAt := r.createdAt }

/-- SQLite `AdminRepository.ValidateCredentials`: any `GetByUsername` failure
and a failed password check both collapse into the same generic message. -/
def sqliteValidateCredentials (db : List AdminRow) (username password : String) :
    Except String Admin :=
  match sqliteAdminGetByUsername db username with
  | .error _ => .error "invalid credentials"
  | .ok adminUser =>
    if !(adminUser.ValidatePassword password) then .error "invalid credentials"
    else .ok adminUser

end HrhGo

namespace HrhGo

/-- The conjunction of the checks of `Teacher.validateInvariants`. -/
def TeacherWellFormed (t : Teacher) : Prop :=
  t.Email ≠ "" ∧ emailMatch t.Email = true ∧ t.FirstName ≠ "" ∧ t.LastName ≠ "" ∧
    t.SchoolID ≠ "" ∧ statusIsValid t.Status = true ∧
    (t.WishlistURL ≠ "" → validateWishlistURL t.WishlistURL = none)

lemma teacher_validateInvariants_eq_none_iff (t : Teacher) :
    t.validateInvariants = none ↔ TeacherWellFormed t := by
  unfold Teacher.validateInvariants TeacherWellFormed
  split_ifs with h1 h2 h3 h4 h5 h6 h7 <;> simp_all

lemma statusIsValid_cases {ts : String} (h : statusIsValid ts = true) :
    ts = TeacherStatusPending ∨ ts = TeacherStatusApproved ∨ ts = TeacherStatusRejected := by
  unfold statusIsValid at h
  rcases Bool.or_eq_true_iff.mp h with h' | h'
  · rcases Bool.or_eq_true_iff.mp h' with h'' | h''
    · exact Or.inl (eq_of_beq h'')
    · exact Or.inr (Or.inl (eq_of_beq h''))
  · exact Or.inr (Or.inr (eq_of_beq h'))

end HrhGo

namespace HrhGo

lemma approve_preserves_wf (t : Teacher) (now : Nat) (hw : TeacherWellFormed t) :
    Teacher.validateInvariants
      { t with Status := TeacherStatusApproved, UpdatedAt := now } = none := by
  rw [teacher_validateInvariants_eq_none_iff]
  obtain ⟨h1, h2, h3, h4, h5, h6, h7⟩ := hw
  refine ⟨h1, h2, h3, h4, h5, by simp [statusIsValid, TeacherStatusApproved], ?_⟩
  intro hu
  exact h7 hu

/-- C2: for a Teacher satisfying the aggregate invariants, `Approve` succeeds
exactly when the status is `pending` and the wishlist URL is non-empty, and
when it fails it returns an error leaving every field unchanged. -/
theorem approve_succeeds_iff_pending_with_wishlist (t : Teacher) (now : Nat)
    (hv : t.validateInvariants = none) :
    ((t.Approve now).1 = none ↔
      (t.Status = TeacherStatusPending ∧ t.WishlistURL ≠ "")) ∧
    ((t.Approve now).1 ≠ none → (t.Approve now).2 = t) := by
  have hw := (teacher_validateInvariants_eq_none_iff t).mp hv
  have hs := statusIsValid_cases hw.2.2.2.2.2.1
  rcases hs with hp | ha | hr
  · by_cases hu : t.WishlistURL = ""
    · constructor
      · simp [Teacher.Approve, hp, hu, TeacherStatusPending, TeacherStatusApproved,
          TeacherStatusRejected]
      · intro _
        simp [Teacher.Approve, hp, hu, TeacherStatusPending, TeacherStatusApproved,
          TeacherStatusRejected]
    · have hok := approve_preserves_wf t now hw
      simp only [TeacherStatusApproved] at hok
      constructor
      · simp only [Teacher.Approve, hp]
        simp [TeacherStatusPending, TeacherStatusApproved, TeacherStatusRejected, hu, hok]
      · intro hne
        exfalso
        apply hne
        simp only [Teacher.Approve, hp]
        simp [TeacherStatusPending, TeacherStatusApproved, TeacherStatusRejected, hu, hok]
  · constructor
    · simp [Teacher.Approve, ha, TeacherStatusPending, TeacherStatusApproved]
    · intro _
      simp [Teacher.Approve, ha]
  · constructor
    · simp [Teacher.Approve, hr, TeacherStatusPending, TeacherStatusApproved,
        TeacherStatusRejected]
    · intro _
      simp [Teacher.Approve, hr, TeacherStatusApproved, TeacherStatusRejected]

/-- A pending teacher with a valid wishlist URL, as in the repository's tests. -/
def sampleTeacher : Teacher :=
  { ID := "t-1", Email := "teacher@example.com", FirstName := "John",
    LastName := "Doe", SchoolID := "school-123", GradeLevel := "5th Grade",
    WishlistURL := "https://www.amazon.com/hz/wishlist/ls/ABC123",
    Status := TeacherStatusPending, CreatedAt := 1, UpdatedAt := 1 }

/-- Witness for C2 at a concrete pending teacher. -/
theorem approve_succeeds_iff_witness :
    ((sampleTeacher.Approve 2).1 = none ↔
      (sampleTeacher.Status = TeacherStatusPending ∧ sampleTeacher.WishlistURL ≠ "")) ∧
    ((sampleTeacher.Approve 2).1 ≠ none → (sampleTeacher.Approve 2).2 = sampleTeacher) :=
  approve_succeeds_iff_pending_with_wishlist sampleTeacher 2 (by decide)

end HrhGo

namespace HrhGo

/-- C6: `approved` and `rejected` are terminal — for any Teacher in either
status both transitions return an error and leave the aggregate (in
particular its status) unchanged — and a successfully constructed Teacher
always starts `pending`. -/
theorem terminal_states_and_initial_status :
    (∀ (t : Teacher) (now : Nat),
      t.Status = TeacherStatusApproved ∨ t.Status = TeacherStatusRejected →
        (t.Approve now).1 ≠ none ∧ (t.Approve now).2 = t ∧
          (t.Reject now).1 ≠ none ∧ (t.Reject now).2 = t) ∧
    (∀ (id : String) (now : Nat) (email firstName lastName schoolID gradeLevel : String)
        (t : Teacher),
      NewTeacher id now email firstName lastName schoolID gradeLevel = .ok t →
        t.Status = TeacherStatusPending) := by
  constructor
  · intro t now h
    rcases h with h | h <;>
      simp [Teacher.Approve, Teacher.Reject, h, TeacherStatusApproved, TeacherStatusRejected]
  · intro id now email firstName lastName schoolID gradeLevel t h
    simp only [NewTeacher] at h
    split at h
    · cases h
    · cases h
      rfl

/-- Witness for C6: both transitions fail and change nothing on a concrete
approved teacher. -/
theorem terminal_states_witness :
    ({ sampleTeacher with
        Status := TeacherStatusApproved : Teacher }.Approve 3).1 ≠ none ∧
      ({ sampleTeacher with
        Status := TeacherStatusApproved : Teacher }.Approve 3).2 =
        { sampleTeacher with Status := TeacherStatusApproved } ∧
      ({ sampleTeacher with
        Status := TeacherStatusApproved : Teacher }.Reject 3).1 ≠ none ∧
      ({ sampleTeacher with
        Status := TeacherStatusApproved : Teacher }.Reject 3).2 =
        { sampleTeacher with Status := TeacherStatusApproved } :=
  terminal_states_and_initial_status.1
    { sampleTeacher with Status := TeacherStatusApproved } 3 (Or.inl rfl)

/-- C10: every Teacher mutator (`Approve`, `Reject`, `UpdateWishlistURL`,
`UpdateProfile`) leaves `ID`, `Email`, `SchoolID` and `CreatedAt` unchanged,
whether it succeeds or fails. -/
theorem teacher_mutators_frame (t : Teacher) (now : Nat)
    (url firstName lastName gradeLevel : String) :
    ((t.Approve now).2.ID = t.ID ∧ (t.Approve now).2.Email = t.Email ∧
      (t.Approve now).2.SchoolID = t.SchoolID ∧ (t.Approve now).2.CreatedAt = t.CreatedAt) ∧
    ((t.Reject now).2.ID = t.ID ∧ (t.Reject now).2.Email = t.Email ∧
      (t.Reject now).2.SchoolID = t.SchoolID ∧ (t.Reject now).2.CreatedAt = t.CreatedAt) ∧
    ((t.UpdateWishlistURL url now).2.ID = t.ID ∧
      (t.UpdateWishlistURL url now).2.Email = t.Email ∧
      (t.UpdateWishlistURL url now).2.SchoolID = t.SchoolID ∧
      (t.UpdateWishlistURL url now).2.CreatedAt = t.CreatedAt) ∧
    ((t.UpdateProfile firstName lastName gradeLevel now).2.ID = t.ID ∧
      (t.UpdateProfile firstName lastName gradeLevel now).2.Email = t.Email ∧
      (t.UpdateProfile firstName lastName gradeLevel now).2.SchoolID = t.SchoolID ∧
      (t.UpdateProfile firstName lastName gradeLevel now).2.CreatedAt = t.CreatedAt) := by
  refine ⟨?_, ?_, ?_, ?_⟩
  · unfold Teacher.Approve
    split_ifs <;> simp
  · unfold Teacher.Reject
    split_ifs <;> simp
  · unfold Teacher.UpdateWishlistURL
    cases h : validateWishlistURL (trimSpace url) <;> simp [h]
  · unfold Teacher.UpdateProfile
    simp

/-- The sample teacher after approval, holding a valid wishlist URL. -/
def approvedTeacher : Teacher :=
  { sampleTeacher with Status := TeacherStatusApproved }

/-- C1: evaluation of the code at the failing input — `UpdateWishlistURL ""`
on an approved teacher with a valid wishlist URL returns no error and empties
the URL, because `validateWishlistURL` accepts the empty string and
`validateInvariants` has no "approved implies wishlist non-empty" check; the
claimed invariant is therefore not preserved. -/
theorem updateWishlistURL_empties_approved_teacher :
    approvedTeacher.Status = TeacherStatusApproved ∧
    approvedTeacher.WishlistURL ≠ "" ∧
    approvedTeacher.validateInvariants = none ∧
    (approvedTeacher.UpdateWishlistURL "" 9).1 = none ∧
    (approvedTeacher.UpdateWishlistURL "" 9).2.WishlistURL = "" := by
  refine ⟨rfl, by decide, by decide, by decide, by decide⟩

end HrhGo

namespace HrhGo

/-- The location used by the repository's own school tests. -/
def sampleLocation : Location :=
  { Latitude := 40, Longitude := -74, County := "New York County", Region := "Northeast" }

/-- The address used by the repository's own school tests. -/
def sampleAddress : Address :=
  { Street := "123 Main St", City := "New York", State := "NY", ZipCode := "10001",
    Location := sampleLocation }

/-- A valid School built from the sample address. -/
def sampleSchool : School :=
  { ID := "s-1", Name := "Test Elementary School", Address := sampleAddress,
    CreatedAt := 1, UpdatedAt := 1 }

/-- An address whose street is set but whose city and state are empty: it is
not `IsEmpty`, yet violates the aggregate-level city/state invariants. -/
def streetOnlyAddress : Address :=
  { Street := "123 Main St", City := "", State := "", ZipCode := "",
    Location := { Latitude := 0, Longitude := 0, County := "", Region := "" } }

/-- C5 counterexample: `UpdateAddress` succeeds on a street-only address (its
only check is `IsEmpty`), mutating the school and bumping the timestamp even
though the full aggregate invariant fails on the result — so the mutators do
not re-run the full invariant check. -/
theorem updateAddress_skips_full_invariant :
    sampleSchool.ValidateInvariants = none ∧
    (sampleSchool.UpdateAddress streetOnlyAddress 9).1 = none ∧
    School.ValidateInvariants (sampleSchool.UpdateAddress streetOnlyAddress 9).2 =
      some "school address must have a city" ∧
    (sampleSchool.UpdateAddress streetOnlyAddress 9).2 ≠ sampleSchool := by decide

/-- C5 amended: `UpdateName` checks only that the trimmed name is non-empty
and `UpdateAddress` only that the address is not `IsEmpty`; each succeeds and
bumps the update timestamp exactly when its own field check passes, and on
failure leaves the school unchanged. -/
theorem school_update_mutators_characterization (s : School) (name : String)
    (address : HrhGo.Address) (now : Nat) :
    (((s.UpdateName name now).1 = none ↔ trimSpace name ≠ "") ∧
      ((s.UpdateName name now).1 ≠ none → (s.UpdateName name now).2 = s) ∧
      ((s.UpdateName name now).1 = none →
        (s.UpdateName name now).2 = { s with Name := trimSpace name, UpdatedAt := now })) ∧
    (((s.UpdateAddress address now).1 = none ↔ address.IsEmpty = false) ∧
      ((s.UpdateAddress address now).1 ≠ none → (s.UpdateAddress address now).2 = s) ∧
      ((s.UpdateAddress address now).1 = none →
        (s.UpdateAddress address now).2 = { s with Address := address, UpdatedAt := now })) := by
  constructor
  · simp only [School.UpdateName]
    split_ifs with h <;> simp_all
  · simp only [School.UpdateAddress]
    split_ifs with h <;> simp_all

/-- Witness for the amended C5 at a concrete school and inputs. -/
theorem school_update_mutators_witness :
    (((sampleSchool.UpdateName "  Lincoln High  " 7).1 = none ↔
        trimSpace "  Lincoln High  " ≠ "") ∧
      ((sampleSchool.UpdateName "  Lincoln High  " 7).1 ≠ none →
        (sampleSchool.UpdateName "  Lincoln High  " 7).2 = sampleSchool) ∧
      ((sampleSchool.UpdateName "  Lincoln High  " 7).1 = none →
        (sampleSchool.UpdateName "  Lincoln High  " 7).2 =
          { sampleSchool with Name := trimSpace "  Lincoln High  ", UpdatedAt := 7 })) ∧
    (((sampleSchool.UpdateAddress streetOnlyAddress 7).1 = none ↔
        streetOnlyAddress.IsEmpty = false) ∧
      ((sampleSchool.UpdateAddress streetOnlyAddress 7).1 ≠ none →
        (sampleSchool.UpdateAddress streetOnlyAddress 7).2 = sampleSchool) ∧
      ((sampleSchool.UpdateAddress streetOnlyAddress 7).1 = none →
        (sampleSchool.UpdateAddress streetOnlyAddress 7).2 =
          { sampleSchool with Address := streetOnlyAddress, UpdatedAt := 7 })) :=
  school_update_mutators_characterization sampleSchool "  Lincoln High  "
    streetOnlyAddress 7

/-- C7 counterexample: `NewAdmin` succeeds while storing the supplied value
verbatim as the password hash — the stored hash equals the plain text that was
passed in, so `NewAdmin` does not hash its input (its parameter is an
already-hashed value). -/
theorem newAdmin_stores_supplied_value_verbatim :
    NewAdmin "a-1" 0 "testuser" "plainpassword123" =
      .ok { ID := "a-1", Username := "testuser", PasswordHash := "plainpassword123",
            CreatedAt := 0 } := rfl

/-- C7 amended: `NewUser` hashes the plain password with the one-way hash
before storing (so the stored hash never equals the plain text, and
`ValidatePassword` is exactly the one-way comparison against the stored hash),
while `NewAdmin` stores its already-hashed argument verbatim. -/
theorem password_hashing_characterization :
    (∀ (id : String) (now : Nat) (username plainPassword : String) (u : User),
      NewUser id now username plainPassword = .ok u →
        u.PasswordHash = bcryptHash plainPassword ∧ u.PasswordHash ≠ plainPassword ∧
          (∀ candidate, u.ValidatePassword candidate = bcryptCompare u.PasswordHash candidate) ∧
          u.ValidatePassword plainPassword = true) ∧
    (∀ (id : String) (now : Nat) (username passwordHash : String) (a : Admin),
      NewAdmin id now username passwordHash = .ok a → a.PasswordHash = passwordHash) := by
  constructor
  · intro id now username plainPassword u h
    simp only [NewUser, HashPassword] at h
    split_ifs at h with hp
    dsimp only [] at h
    split at h
    · cases h
    · cases h
      refine ⟨rfl, ?_, fun candidate => rfl, ?_⟩
      · intro hcontra
        have hlen := congrArg String.length hcontra
        simp [bcryptHash, String.length_append] at hlen
        exact absurd hlen (by decide)
      · simp [User.ValidatePassword, bcryptCompare]
  · intro id now username passwordHash a h
    simp only [NewAdmin] at h
    split at h
    · cases h
    · cases h
      rfl

/-- The user produced by a concrete `NewUser` run. -/
def sampleUser : User :=
  { ID := "u-1", Username := "testuser", PasswordHash := "$2a$10$pw123456",
    CreatedAt := 0 }

/-- The admin produced by a concrete `NewAdmin` run. -/
def sampleAdmin : Admin :=
  { ID := "a-2", Username := "opsadmin", PasswordHash := "$2a$10$stored",
    CreatedAt := 0 }

/-- Witness for the amended C7 at a concrete user and admin construction. -/
theorem password_hashing_witness :
    (sampleUser.PasswordHash = bcryptHash "pw123456" ∧
      sampleUser.PasswordHash ≠ "pw123456" ∧
      (∀ candidate,
        sampleUser.ValidatePassword candidate =
          bcryptCompare sampleUser.PasswordHash candidate) ∧
      sampleUser.ValidatePassword "pw123456" = true) ∧
    sampleAdmin.PasswordHash = "$2a$10$stored" :=
  ⟨password_hashing_characterization.1 "u-1" 0 "testuser" "pw123456" sampleUser rfl,
    password_hashing_characterization.2 "a-2" 0 "opsadmin" "$2a$10$stored" sampleAdmin rfl⟩

end HrhGo

namespace HrhGo

lemma find?_erase_self {α : Type} (m : List (String × α)) (k : String) :
    (mapErase m k).find? (fun p => p.1 == k) = none := by
  unfold mapErase
  rw [List.find?_eq_none]
  intro p hp
  have := List.of_mem_filter hp
  simpa using this

lemma mapLookup_erase_self {α : Type} (m : List (String × α)) (k : String) :
    mapLookup (mapErase m k) k = none := by
  unfold mapLookup
  rw [find?_erase_self]
  rfl

lemma mapLookup_insert {α : Type} (m : List (String × α)) (k : String) (v : α) :
    mapLookup (mapInsert m k v) k = some v := by
  unfold mapLookup mapInsert
  rw [List.find?_append, find?_erase_self]
  simp [List.find?]

lemma save_fresh_collision (repo : InMemorySchoolRepo) (s ex : School)
    (h1 : mapLookup repo.schools s.ID = none)
    (h2 : mapLookup repo.uniqueCombos s.GetUniqueKey = some ex)
    (h3 : ex.ID ≠ s.ID) :
    repo.Save s = (some (inMemDupMsg s ex.ID), repo) := by
  unfold InMemorySchoolRepo.Save
  rw [h1]
  dsimp only []
  rw [h2]
  dsimp only []
  rw [if_pos h3]

lemma save_fresh_free (repo : InMemorySchoolRepo) (s : School)
    (h1 : mapLookup repo.schools s.ID = none)
    (h2 : mapLookup repo.uniqueCombos s.GetUniqueKey = none) :
    repo.Save s =
      (none, { schools := mapInsert repo.schools s.ID s,
               uniqueCombos := mapInsert repo.uniqueCombos s.GetUniqueKey s }) := by
  unfold InMemorySchoolRepo.Save
  rw [h1]
  dsimp only []
  rw [h2]

lemma save_update_collision (repo : InMemorySchoolRepo) (s old ex : School)
    (h1 : mapLookup repo.schools s.ID = some old)
    (h2 : mapLookup (mapErase repo.uniqueCombos old.GetUniqueKey) s.GetUniqueKey = some ex)
    (h3 : ex.ID ≠ s.ID) :
    repo.Save s =
      (some (inMemDupMsg s ex.ID),
        { repo with uniqueCombos := mapErase repo.uniqueCombos old.GetUniqueKey }) := by
  unfold InMemorySchoolRepo.Save
  rw [h1]
  dsimp only []
  rw [h2]
  dsimp only []
  rw [if_pos h3]

lemma save_ok_lookup (repo : InMemorySchoolRepo) (s : School)
    (repo' : InMemorySchoolRepo) (h : repo.Save s = (none, repo')) :
    mapLookup repo'.schools s.ID = some s := by
  unfold InMemorySchoolRepo.Save at h
  cases hs : mapLookup repo.schools s.ID <;> rw [hs] at h <;> dsimp only [] at h
  · split at h
    · split_ifs at h
      · simp at h
      · simp only [Prod.mk.injEq] at h
        rw [← h.2]
        exact mapLookup_insert repo.schools s.ID s
    · simp only [Prod.mk.injEq] at h
      rw [← h.2]
      exact mapLookup_insert repo.schools s.ID s
  · split at h
    · split_ifs at h
      · simp at h
      · simp only [Prod.mk.injEq] at h
        rw [← h.2]
        exact mapLookup_insert repo.schools s.ID s
    · simp only [Prod.mk.injEq] at h
      rw [← h.2]
      exact mapLookup_insert repo.schools s.ID s

/-- A zero location used by the small in-memory scenarios. -/
def plainLocation : Location :=
  { Latitude := 0, Longitude := 0, County := "", Region := "" }

/-- School "a" in city c, state s, identity 1. -/
def schoolA : School :=
  { ID := "1", Name := "a",
    Address := { Street := "st", City := "c", State := "s", ZipCode := "",
                 Location := plainLocation },
    CreatedAt := 1, UpdatedAt := 1 }

/-- School "b" in the same city and state, identity 2. -/
def schoolB : School := { schoolA with ID := "2", Name := "b" }

/-- The repository holding schools A and B. -/
def repoAB : InMemorySchoolRepo := ((emptySchoolRepo.Save schoolA).2.Save schoolB).2

/-- School B renamed to "a", so its natural key collides with school A. -/
def schoolB2 : School := { schoolB with Name := "a" }

/-- C4 counterexample: updating school B to collide with school A fails, but
the failed `Update` has already deleted B's own entry from the unique-index
map (and the error it returns is not recognized by `IsDuplicateKeyError`), so
the unique index is NOT left exactly as it was before the call. -/
theorem inmem_update_collision_mutates_index :
    mapLookup repoAB.uniqueCombos "b|c|s" = some schoolB ∧
    (repoAB.Update schoolB2).1 =
      some "school with name 'a', city 'c', and state 's' already exists (ID: 1)" ∧
    isDuplicateKeyError
      "school with name 'a', city 'c', and state 's' already exists (ID: 1)" = false ∧
    mapLookup (repoAB.Update schoolB2).2.uniqueCombos "b|c|s" = none := by decide

/-- C4 amended: a natural-key collision with a different identity makes
`Create`/`Update` fail with the "already exists" error and never touches the
colliding record's own index entry (it stays reachable under the natural
key); for `Create` of a fresh identity the whole state is untouched, but a
failing `Update` of an existing identity has already erased that school's
previous natural-key entry from the unique index. -/
theorem inmem_collision_leaves_colliding_entry :
    (∀ (repo : InMemorySchoolRepo) (s ex : School),
      mapLookup repo.schools s.ID = none →
      mapLookup repo.uniqueCombos s.GetUniqueKey = some ex → ex.ID ≠ s.ID →
        repo.Create s = (some (inMemDupMsg s ex.ID), repo)) ∧
    (∀ (repo : InMemorySchoolRepo) (s old ex : School),
      mapLookup repo.schools s.ID = some old →
      mapLookup (mapErase repo.uniqueCombos old.GetUniqueKey) s.GetUniqueKey = some ex →
      ex.ID ≠ s.ID →
        repo.Update s =
          (some (inMemDupMsg s ex.ID),
            { repo with uniqueCombos := mapErase repo.uniqueCombos old.GetUniqueKey }) ∧
        mapLookup (repo.Update s).2.uniqueCombos s.GetUniqueKey = some ex) := by
  constructor
  · intro repo s ex h1 h2 h3
    exact save_fresh_collision repo s ex h1 h2 h3
  · intro repo s old ex h1 h2 h3
    have hs := save_update_collision repo s old ex h1 h2 h3
    refine ⟨hs, ?_⟩
    show mapLookup (repo.Save s).2.uniqueCombos s.GetUniqueKey = some ex
    rw [hs]
    exact h2

/-- The repository holding only school A. -/
def repoA : InMemorySchoolRepo := (emptySchoolRepo.Save schoolA).2

/-- A fresh identity whose natural key collides with school A. -/
def schoolA9 : School := { schoolA with ID := "9" }

/-- Witness for the amended C4 on the concrete colliding repositories. -/
theorem inmem_collision_witness :
    (repoA.Create schoolA9 = (some (inMemDupMsg schoolA9 schoolA.ID), repoA)) ∧
    (repoAB.Update schoolB2 =
      (some (inMemDupMsg schoolB2 schoolA.ID),
        { repoAB with uniqueCombos := mapErase repoAB.uniqueCombos schoolB.GetUniqueKey }) ∧
      mapLookup (repoAB.Update schoolB2).2.uniqueCombos schoolB2.GetUniqueKey =
        some schoolA) :=
  ⟨inmem_collision_leaves_colliding_entry.1 repoA schoolA9 schoolA
      (by decide) (by decide) (by decide),
    inmem_collision_leaves_colliding_entry.2 repoAB schoolB2 schoolB schoolA
      (by decide) (by decide) (by decide)⟩

end HrhGo

namespace HrhGo

/-- A valid school as in the repository's SQLite tests. -/
def lincolnSchool : School :=
  { ID := "id1", Name := "Lincoln Elementary",
    Address := { Street := "123 Test St", City := "Springfield", State := "IL",
                 ZipCode := "12345", Location := sampleLocation },
    CreatedAt := 1, UpdatedAt := 1 }

/-- The same school with upper-cased name and a different identity: its
normalized natural key is identical to `lincolnSchool`, its stored bytes are
not. -/
def lincolnUpper : School := { lincolnSchool with ID := "id2", Name := "LINCOLN ELEMENTARY" }

/-- C3 counterexample: the two schools have identical (name, city, state)
triples after lower-casing and trimming, yet the SQLite adapter accepts both —
its `UNIQUE(name, address_city, address_state)` index compares raw bytes, so
the second `Create` succeeds instead of failing with `DuplicateKey`. -/
theorem sqlite_create_accepts_case_variant_duplicate :
    lincolnUpper.GetUniqueKey = lincolnSchool.GetUniqueKey ∧
    sqliteSchoolCreate [] lincolnSchool = .ok [schoolToRow lincolnSchool] ∧
    sqliteSchoolCreate [schoolToRow lincolnSchool] lincolnUpper =
      .ok [schoolToRow lincolnSchool, schoolToRow lincolnUpper] := ⟨rfl, rfl, rfl⟩

lemma subInList_append_of_right (pat l2 : List Char) (h : subInList pat l2 = true) :
    ∀ l1 : List Char, subInList pat (l1 ++ l2) = true := by
  intro l1
  induction l1 with
  | nil => simpa using h
  | cons c rest ih =>
    have hstep : subInList pat ((c :: rest) ++ l2) =
        (charListEqPre pat ((c :: rest) ++ l2) || subInList pat (rest ++ l2)) := rfl
    rw [hstep, ih]
    simp

lemma isDuplicateKeyError_schoolDupMsg (s : School) :
    isDuplicateKeyError (sqliteSchoolDupMsg s) = true := by
  unfold isDuplicateKeyError sqliteSchoolDupMsg strContains
  simp only [Bool.or_eq_true]
  right
  have hmsg : ("school with name '" ++ s.Name ++ "' in " ++ s.Address.City ++ ", " ++
      s.Address.State ++ " already exists: duplicate key violation").toList =
      ("school with name '" ++ s.Name ++ "' in " ++ s.Address.City ++ ", " ++
        s.Address.State).toList ++ (" already exists: duplicate key violation").toList := by
    simp [String.toList, String.data_append]
  rw [hmsg]
  exact subInList_append_of_right _ _ (by decide) _

/-- C3 amended: in the SQLite adapter a valid school is accepted exactly when
no stored row has a byte-identical id or (name, city, state) triple, and a
byte-identical triple makes `Create` fail with the duplicate-key error (which
`IsDuplicateKeyError` classifies); in the in-memory repository a collision of
the *normalized* natural key with a different identity makes the second
`Create` fail with its "already exists" error and leaves the state unchanged,
while a school with a free normalized key (e.g. same name, different city) is
accepted. -/
theorem school_uniqueness_by_adapter :
    (∀ (db : List SchoolRow) (s : School), s.ValidateInvariants = none →
      (sqliteSchoolCreate db s = .ok (db ++ [schoolToRow s]) ↔
        sqliteSchoolConflict db s = false)) ∧
    (∀ (db : List SchoolRow) (s : School), s.ValidateInvariants = none →
      sqliteSchoolConflict db s = true →
        sqliteSchoolCreate db s = .error (sqliteSchoolDupMsg s) ∧
          isDuplicateKeyError (sqliteSchoolDupMsg s) = true) ∧
    (∀ (repo : InMemorySchoolRepo) (s ex : School),
      mapLookup repo.schools s.ID = none →
      mapLookup repo.uniqueCombos s.GetUniqueKey = some ex → ex.ID ≠ s.ID →
        (repo.Create s).1 = some (inMemDupMsg s ex.ID) ∧ (repo.Create s).2 = repo) ∧
    (∀ (repo : InMemorySchoolRepo) (s : School),
      mapLookup repo.schools s.ID = none →
      mapLookup repo.uniqueCombos s.GetUniqueKey = none →
        (repo.Create s).1 = none) := by
  refine ⟨?_, ?_, ?_, ?_⟩
  · intro db s hv
    unfold sqliteSchoolCreate
    rw [hv]
    by_cases hc : sqliteSchoolConflict db s
    · rw [if_pos hc]
      simp [hc]
    · rw [if_neg hc]
      simp only [Bool.not_eq_true] at hc
      simp [hc]
  · intro db s hv hc
    unfold sqliteSchoolCreate
    rw [hv]
    rw [if_pos hc]
    exact ⟨rfl, isDuplicateKeyError_schoolDupMsg s⟩
  · intro repo s ex h1 h2 h3
    have := save_fresh_collision repo s ex h1 h2 h3
    constructor
    · show (repo.Save s).1 = _
      rw [this]
    · show (repo.Save s).2 = repo
      rw [this]
  · intro repo s h1 h2
    have := save_fresh_free repo s h1 h2
    show (repo.Save s).1 = none
    rw [this]

/-- Same name as `lincolnSchool` in a different city. -/
def albanyAddress : Address :=
  { Street := "123 Test St", City := "Albany", State := "IL", ZipCode := "12345",
    Location := sampleLocation }

/-- The Albany variant of the Lincoln school. -/
def lincolnAlbany : School :=
  { lincolnSchool with ID := "id3", Address := albanyAddress }

/-- Witness for the amended C3: a byte-identical duplicate is rejected as a
classified duplicate-key error, a same-name-different-city school is accepted,
and the in-memory collision/acceptance cases at concrete repositories. -/
theorem school_uniqueness_witness :
    (sqliteSchoolCreate [schoolToRow lincolnSchool] lincolnSchool =
        .error (sqliteSchoolDupMsg lincolnSchool) ∧
      isDuplicateKeyError (sqliteSchoolDupMsg lincolnSchool) = true) ∧
    (sqliteSchoolCreate [schoolToRow lincolnSchool] lincolnAlbany =
      .ok ([schoolToRow lincolnSchool] ++ [schoolToRow lincolnAlbany]) ↔
        sqliteSchoolConflict [schoolToRow lincolnSchool] lincolnAlbany = false) ∧
    ((repoA.Create schoolA9).1 = some (inMemDupMsg schoolA9 schoolA.ID) ∧
      (repoA.Create schoolA9).2 = repoA) ∧
    ((repoA.Create schoolB).1 = none) :=
  ⟨school_uniqueness_by_adapter.2.1 [schoolToRow lincolnSchool] lincolnSchool
      (by decide) (by decide),
    school_uniqueness_by_adapter.1 [schoolToRow lincolnSchool] lincolnAlbany (by decide),
    school_uniqueness_by_adapter.2.2.1 repoA schoolA9 schoolA
      (by decide) (by decide) (by decide),
    school_uniqueness_by_adapter.2.2.2 repoA schoolB (by decide) (by decide)⟩

end HrhGo

namespace HrhGo

lemma find?_of_any_or_false {α : Type} (db : List α) (p q : α → Bool)
    (h : db.any (fun r => p r || q r) = false) : db.find? p = none := by
  rw [List.find?_eq_none]
  intro x hx
  rw [List.any_eq_false] at h
  have := h x hx
  simp only [Bool.or_eq_true, not_or] at this
  simp [this.1]

lemma find?_append_singleton {α : Type} (p : α → Bool) (db : List α) (x : α)
    (hdb : db.find? p = none) (hx : p x = true) :
    (db ++ [x]).find? p = some x := by
  rw [List.find?_append, hdb]
  simp [List.find?, hx]

/-- C8: a successful `Create` followed by `GetByID` on the same identity
returns the aggregate with every field equal — for the in-memory school
repository, the SQLite school adapter (whose Address and Location value
objects round-trip through their validating constructors whenever the stored
value objects are canonical, i.e. rebuild to themselves), the SQLite teacher
adapter, and the admin adapter. -/
theorem create_getByID_roundtrip :
    (∀ (repo repo' : InMemorySchoolRepo) (s : School),
      repo.Create s = (none, repo') → repo'.GetByID s.ID = .ok s) ∧
    (∀ (db db' : List SchoolRow) (s : School),
      NewLocation s.Address.Location.Latitude s.Address.Location.Longitude
        s.Address.Location.County s.Address.Location.Region = .ok s.Address.Location →
      NewAddress s.Address.Street s.Address.City s.Address.State
        s.Address.ZipCode s.Address.Location = .ok s.Address →
      sqliteSchoolCreate db s = .ok db' → sqliteSchoolGetByID db' s.ID = .ok s) ∧
    (∀ (schools : List SchoolRow) (db db' : List TeacherRow) (t : Teacher),
      sqliteTeacherCreate schools db t = .ok db' →
        sqliteTeacherGetByID db' t.ID = .ok t) ∧
    (∀ (db db' : List AdminRow) (a : Admin),
      sqliteAdminCreate db a = .ok db' → sqliteAdminGetByID db' a.ID = .ok a) := by
  refine ⟨?_, ?_, ?_, ?_⟩
  · intro repo repo' s h
    have hl := save_ok_lookup repo s repo' h
    unfold InMemorySchoolRepo.GetByID
    rw [hl]
  · intro db db' s hcl hca h
    unfold sqliteSchoolCreate at h
    cases hval : s.ValidateInvariants <;> rw [hval] at h
    · dsimp only [] at h
      split_ifs at h with hc
      cases h
      unfold sqliteSchoolGetByID
      have hcf : sqliteSchoolConflict db s = false := by simpa using hc
      unfold sqliteSchoolConflict at hcf
      rw [find?_append_singleton _ db (schoolToRow s)
        (find?_of_any_or_false db _ _ hcf) (by simp [schoolToRow])]
      dsimp only [schoolToRow]
      rw [hcl]
      dsimp only []
      rw [hca]
    · cases h
  · intro schools db db' t h
    unfold sqliteTeacherCreate at h
    split_ifs at h with h1 h2
    cases h
    unfold sqliteTeacherGetByID
    have h1f : db.any (fun r => r.id == t.ID || r.email == t.Email) = false := by
      simpa using h1
    rw [find?_append_singleton _ db (teacherToRow t)
      (find?_of_any_or_false db _ _ h1f) (by simp [teacherToRow])]
    rfl
  · intro db db' a h
    unfold sqliteAdminCreate at h
    split_ifs at h with h1
    cases h
    unfold sqliteAdminGetByID
    have h1f : db.any (fun r => r.id == a.ID || r.username == a.Username) = false := by
      simpa using h1
    rw [find?_append_singleton _ db _ (find?_of_any_or_false db _ _ h1f) (by simp)]

/-- A schools-table row for the school referenced by `sampleTeacher`. -/
def schoolRow123 : SchoolRow :=
  schoolToRow { ID := "school-123", Name := "Ref School",
                Address := sampleAddress, CreatedAt := 1, UpdatedAt := 1 }

/-- Witness for C8: concrete create-then-get runs for all four adapters. -/
theorem create_getByID_roundtrip_witness :
    ((emptySchoolRepo.Create schoolA).2.GetByID schoolA.ID = .ok schoolA) ∧
    (sqliteSchoolGetByID [schoolToRow lincolnSchool] lincolnSchool.ID =
      .ok lincolnSchool) ∧
    (sqliteTeacherGetByID [teacherToRow sampleTeacher] sampleTeacher.ID =
      .ok sampleTeacher) ∧
    (sqliteAdminGetByID
      [{ id := sampleAdmin.ID, username := sampleAdmin.Username,
         passwordHash := sampleAdmin.PasswordHash, createdAt := sampleAdmin.CreatedAt }]
      sampleAdmin.ID = .ok sampleAdmin) :=
  ⟨create_getByID_roundtrip.1 emptySchoolRepo (emptySchoolRepo.Create schoolA).2 schoolA
      (by decide),
    create_getByID_roundtrip.2.1 [] [schoolToRow lincolnSchool] lincolnSchool
      rfl rfl rfl,
    create_getByID_roundtrip.2.2.1 [schoolRow123] [] [teacherToRow sampleTeacher]
      sampleTeacher rfl,
    create_getByID_roundtrip.2.2.2 [] _ sampleAdmin rfl⟩

end HrhGo

namespace HrhGo

/-- Rows whose reconstruction through `NewAdminWithHash` cannot fail: the
trimmed username is long enough and the hash is non-empty (what `Create`
persists for any valid Admin). -/
def AdminRowWellFormed (r : AdminRow) : Prop :=
  3 ≤ (trimSpace r.username).length ∧ r.passwordHash ≠ ""

/-- The aggregate `GetByUsername` rebuilds from a row. -/
def adminFromRow (r : AdminRow) : Admin :=
  { ID := r.id, Username := trimSpace r.username, PasswordHash := r.passwordHash,
    CreatedAt := r.createdAt }

lemma newAdminWithHash_ok (r : AdminRow) (h : AdminRowWellFormed r) :
    NewAdminWithHash "" 0 r.username r.passwordHash =
      .ok { ID := "", Username := trimSpace r.username,
            PasswordHash := r.passwordHash, CreatedAt := 0 } := by
  obtain ⟨h1, h2⟩ := h
  unfold NewAdminWithHash Admin.validateInvariants
  have hne : trimSpace r.username ≠ "" := by
    intro heq
    rw [heq] at h1
    simp at h1
  dsimp only []
  rw [if_neg hne, if_neg (by omega : ¬(trimSpace r.username).length < 3), if_neg h2]

lemma getByUsername_found (db : List AdminRow) (username : String) (r : AdminRow)
    (hwf : AdminRowWellFormed r)
    (hf : db.find? (fun p => p.username == username) = some r) :
    sqliteAdminGetByUsername db username = .ok (adminFromRow r) := by
  unfold sqliteAdminGetByUsername
  rw [hf]
  dsimp only []
  rw [newAdminWithHash_ok r hwf]
  rfl

lemma getByUsername_missing (db : List AdminRow) (username : String)
    (hf : db.find? (fun p => p.username == username) = none) :
    sqliteAdminGetByUsername db username =
      .error ("admin with username " ++ username ++ " not found: record not found") := by
  unfold sqliteAdminGetByUsername
  rw [hf]

/-- C9: on any well-formed admin table, every failure of `ValidateCredentials`
— unknown username or wrong password alike — surfaces as the one generic
"invalid credentials" error with no admin value, and it returns an Admin
exactly when a row with the given username exists and the candidate password
validates against that row's stored hash. -/
theorem credentials_generic_failure_and_exact_success (db : List AdminRow)
    (username password : String) (hwf : ∀ r ∈ db, AdminRowWellFormed r) :
    (∀ e, sqliteValidateCredentials db username password = .error e →
      e = "invalid credentials") ∧
    ((∃ a, sqliteValidateCredentials db username password = .ok a) ↔
      (∃ r, db.find? (fun p => p.username == username) = some r ∧
        bcryptCompare r.passwordHash password = true)) := by
  cases hf : db.find? (fun p => p.username == username) with
  | none =>
    have hg := getByUsername_missing db username hf
    constructor
    · intro e he
      unfold sqliteValidateCredentials at he
      rw [hg] at he
      dsimp only [] at he
      cases he
      rfl
    · constructor
      · rintro ⟨a, ha⟩
        unfold sqliteValidateCredentials at ha
        rw [hg] at ha
        cases ha
      · rintro ⟨r, hr, _⟩
        simp at hr
  | some r =>
    have hr := hwf r (List.mem_of_find?_eq_some hf)
    have hg := getByUsername_found db username r hr hf
    by_cases hp : bcryptCompare r.passwordHash password = true
    · constructor
      · intro e he
        unfold sqliteValidateCredentials at he
        rw [hg] at he
        dsimp only [] at he
        rw [if_neg (by simp [Admin.ValidatePassword, adminFromRow, hp])] at he
        cases he
      · constructor
        · intro _
          exact ⟨r, rfl, hp⟩
        · intro _
          refine ⟨adminFromRow r, ?_⟩
          unfold sqliteValidateCredentials
          rw [hg]
          dsimp only []
          rw [if_neg (by simp [Admin.ValidatePassword, adminFromRow, hp])]
    · constructor
      · intro e he
        unfold sqliteValidateCredentials at he
        rw [hg] at he
        dsimp only [] at he
        rw [if_pos (by simp [Admin.ValidatePassword, adminFromRow]; simpa using hp)] at he
        cases he
        rfl
      · constructor
        · rintro ⟨a, ha⟩
          unfold sqliteValidateCredentials at ha
          rw [hg] at ha
          dsimp only [] at ha
          rw [if_pos (by simp [Admin.ValidatePassword, adminFromRow]; simpa using hp)] at ha
          cases ha
        · rintro ⟨r2, hr2, hp2⟩
          cases hr2
          exact absurd hp2 hp

/-- The admins table holding one operator whose stored hash corresponds to the
plain password `secretpw`. -/
def opsRow : AdminRow :=
  { id := "a-2", username := "opsadmin", passwordHash := "$2a$10$secretpw",
    createdAt := 0 }

/-- Witness for C9 on a concrete one-row admin table and a wrong password. -/
theorem credentials_witness :
    (∀ e, sqliteValidateCredentials [opsRow] "opsadmin" "wrongpw" = .error e →
      e = "invalid credentials") ∧
    ((∃ a, sqliteValidateCredentials [opsRow] "opsadmin" "wrongpw" = .ok a) ↔
      (∃ r, [opsRow].find? (fun p => p.username == "opsadmin") = some r ∧
        bcryptCompare r.passwordHash "wrongpw" = true)) :=
  credentials_generic_failure_and_exact_success [opsRow] "opsadmin" "wrongpw"
    (by
      intro r hrm
      rw [List.mem_singleton] at hrm
      subst hrm
      exact ⟨by decide, by decide⟩)

end HrhGo
